import Mathlib

/- Shallow embedding of the Kalman-lock classifier of sot/bias_notebook:
   the function kal of src/kalman_threshold/resids_and_kalstr.py and the
   marginal-offset anomaly detection of
   src/kalman_threshold/search_scripts/from_derived.py.

   Telemetry values are modelled as rationals in place of floats; the
   external mission libraries (agasc.get_star, Ska.quatutil.radec2eci,
   mica.quaternion normalize/Quat.transform and the arctan2 projection to
   arcseconds), which per the spec are collaborators outside this
   repository, are modelled as an input function giving the expected
   (yag, zag) angles of a star at a given attitude quaternion. -/

namespace KalmanThreshold

/-- One fetched telemetry series (an MSID): sample times in CXC seconds and
sample values, as returned by the external fetch collaborator. -/
structure Msid (α : Type) where
  times : List ℚ
  vals : List α
deriving DecidableEq

/-- The telemetry set the classifier reads: the onboard Kalman-star count
series, the four attitude-quaternion component series, per-slot status
series for the 8 slots (fid light, track status, the four image flags, the
measured y/z angles), and the MS-enable master-switch series AOACIMSS. -/
structure Telem where
  aokalstr : Msid String
  aoattqt1 : Msid ℚ
  aoattqt2 : Msid ℚ
  aoattqt3 : Msid ℚ
  aoattqt4 : Msid ℚ
  aoacfid : Fin 8 → Msid String
  aoacfct : Fin 8 → Msid String
  aoaciir : Fin 8 → Msid String
  aoacisp : Fin 8 → Msid String
  aoacidp : Fin 8 → Msid String
  aoacims : Fin 8 → Msid String
  aoacimss : Msid String
  aoacyan : Fin 8 → Msid ℚ
  aoaczan : Fin 8 → Msid ℚ

/-- The dwell argument of kal: the classifier itself only consults the
start date string (compared lexicographically against a day-of-year date
string, exactly as the Python source compares dwell.start with a string). -/
structure Dwell where
  start : String

/-- One guide-catalog entry: assigned slot, star id and entry type
(BOT, GUI, ACQ, FID or MON). -/
structure CatEntry where
  slot : Fin 8
  id : ℕ
  type : String
deriving DecidableEq

/-- The number of telemetry samples; the source sizes its offset arrays by
the length of the AOKALSTR value series (line 85 of the source), and numpy
column stacking forces every per-slot series to share this length. -/
def nSamples (telem : Telem) : ℕ := telem.aokalstr.vals.length

/-- fids matrix: slot is tracking a fiducial light at sample i
(AOACFID value equal to the padded string FID). -/
def fids (telem : Telem) (i : ℕ) (slot : Fin 8) : Bool :=
  (telem.aoacfid slot).vals.getD i "" == "FID "

/-- trak matrix: slot image correlation is tracking at sample i
(AOACFCT value equal to TRAK). -/
def trak (telem : Telem) (i : ℕ) (slot : Fin 8) : Bool :=
  (telem.aoacfct slot).vals.getD i "" == "TRAK"

/-- ir matrix: ionizing-radiation flag is OK at sample i. -/
def ir (telem : Telem) (i : ℕ) (slot : Fin 8) : Bool :=
  (telem.aoaciir slot).vals.getD i "" == "OK "

/-- sp matrix: saturated-pixel flag is OK at sample i. -/
def sp (telem : Telem) (i : ℕ) (slot : Fin 8) : Bool :=
  (telem.aoacisp slot).vals.getD i "" == "OK "

/-- dp_date: DateTime with date 2013:297:11:25:52.000 converted to CXC
seconds (seconds of Terrestrial Time since 1998.0; the UTC instant plus the
67.184 second TT-UTC offset of 2013), that is 499001219.184 seconds,
written as the reduced fraction 62375152398 over 125. -/
def dp_date : ℚ := ⟨62375152398, 125, by norm_num, by norm_num⟩

/-- dp matrix: the defective-pixel condition of the source, line 56:
AOACIDP equal to OK, or the AOKALSTR sample time strictly after dp_date. -/
def dp (telem : Telem) (i : ℕ) (slot : Fin 8) : Bool :=
  ((telem.aoacidp slot).vals.getD i "" == "OK ")
    || decide (telem.aokalstr.times.getD i 0 > dp_date)

/-- Left insertion point of numpy searchsorted on a sorted array: the
number of elements strictly below the query value (the index of the first
element not below it). -/
def searchsortedLeft (a : List ℚ) (v : ℚ) : ℕ :=
  a.countP (fun x => decide (x < v))

/-- Python slicing a[1:-1]: drop the first and the last element. -/
def interior (l : List ℚ) : List ℚ := (l.drop 1).dropLast

/-- numpy integer indexing with the Python convention for negative
indices: an index of minus one selects the last element. -/
def npIndex (l : List Bool) (i : ℤ) : Bool :=
  if i < 0 then l.getD (l.length - i.natAbs) false else l.getD i.toNat false

/-- mss series: AOACIMSS value equal to ENAB at each of its own samples. -/
def mssVals (telem : Telem) : List Bool :=
  telem.aoacimss.vals.map (fun v => v == "ENAB")

/-- mss_at_times of the source, line 64: the MS-enable value at the index
obtained by searchsorted of the query time into the AOACIMSS time series
with its first and last element dropped, minus one. -/
def mssAtTime (telem : Telem) (t : ℚ) : Bool :=
  npIndex (mssVals telem)
    ((searchsortedLeft (interior telem.aoacimss.times) t : ℤ) - 1)

/-- Python string comparison on character lists: lexicographic by code
point, a proper initial segment counting as smaller. -/
def pyCharsLt : List Char → List Char → Bool
  | [], [] => false
  | [], _ :: _ => true
  | _ :: _, [] => false
  | a :: as, b :: bs =>
    if a.val < b.val then true
    else if b.val < a.val then false
    else pyCharsLt as bs

/-- Python strict greater-than on strings, as the source compares
dwell.start against a date string. -/
def pyStrGt (a b : String) : Bool := pyCharsLt b.data a.data

/-- ms matrix, lines 59 to 70 of the source: for dwells starting after the
string 2015:251, AOACIMS equal to OK or the master switch not enabled at
the time of the slot-0 AOACIMS sample; otherwise simply AOACIMS equal
to OK. -/
def ms (dwell : Dwell) (telem : Telem) (i : ℕ) (slot : Fin 8) : Bool :=
  if pyStrGt dwell.start "2015:251" then
    ((telem.aoacims slot).vals.getD i "" == "OK ")
      || !(mssAtTime telem ((telem.aoacims 0).times.getD i 0))
  else
    (telem.aoacims slot).vals.getD i "" == "OK "

/-- last_trak matrix, lines 73 to 74 of the source: the trak matrix rolled
down by 4 rows (row i takes row (i - 4) modulo the number of samples, so
rows 1 to 3 wrap around to the last three rows), with row 0 then forced
to True. -/
def last_trak (telem : Telem) (i : ℕ) (slot : Fin 8) : Bool :=
  if i = 0 then true
  else trak telem (((i : ℤ) - 4).emod (nSamples telem)).toNat slot

/-- Attitude quaternion components at sample i (the source normalizes and
turns them into a rotation inside the external mica.quaternion library). -/
def qAtt (telem : Telem) (i : ℕ) : ℚ × ℚ × ℚ × ℚ :=
  (telem.aoattqt1.vals.getD i 0, telem.aoattqt2.vals.getD i 0,
   telem.aoattqt3.vals.getD i 0, telem.aoattqt4.vals.getD i 0)

/-- Expected-angle collaborator: given a star id and the raw attitude
quaternion of a sample, the expected (yag, zag) angles in arcseconds.
This packages the calls the source makes into the external libraries
(agasc.get_star at the dwell manoeuvre date, radec2eci, the normalized
quaternion transform transposed and applied to the star vector, and the
degrees-of-arctan2 times 3600 projections of lines 93 and 94). -/
def ExpectFn : Type := ℕ → ℚ × ℚ × ℚ × ℚ → ℚ × ℚ

/-- Guide and bot slots, line 83: entries of type BOT or GUI. -/
def gcat (cat : List CatEntry) : List CatEntry :=
  cat.filter (fun e => e.type == "BOT" || e.type == "GUI")

/-- The catalog entry finally governing a slot column: the loop of lines
87 to 96 writes the offset column of the slot of each BOT or GUI entry
in order, so the last such entry for the slot wins; slots no entry names are
never written. -/
def assignedEntry (cat : List CatEntry) (slot : Fin 8) : Option CatEntry :=
  ((gcat cat).filter (fun e => decide (e.slot = slot))).getLast?

/-- yag_offs matrix, lines 85 to 95: initialized to zeros; the column of a
slot with a BOT or GUI entry holds the expected yag minus the measured
AOACYAN value. -/
def yag_offs (expect : ExpectFn) (telem : Telem) (cat : List CatEntry)
    (i : ℕ) (slot : Fin 8) : ℚ :=
  match assignedEntry cat slot with
  | none => 0
  | some e => (expect e.id (qAtt telem i)).1 - (telem.aoacyan slot).vals.getD i 0

/-- zag_offs matrix, lines 86 to 96: as yag_offs, with the expected zag and
the measured AOACZAN value. -/
def zag_offs (expect : ExpectFn) (telem : Telem) (cat : List CatEntry)
    (i : ℕ) (slot : Fin 8) : ℚ :=
  match assignedEntry cat slot with
  | none => 0
  | some e => (expect e.id (qAtt telem i)).2 - (telem.aoaczan slot).vals.getD i 0

/-- The kal locked matrix, lines 98 to 103 of the source: with nowflags,
not fid and tracking now and tracking four steps back and ir OK and sp OK
and both offsets strictly inside the limit; without nowflags, additionally
the dp and ms conditions. -/
def kalMatrix (expect : ExpectFn) (dwell : Dwell) (telem : Telem)
    (limit : ℚ) (cat : List CatEntry) (nowflags : Bool)
    (i : ℕ) (slot : Fin 8) : Bool :=
  if nowflags then
    !(fids telem i slot) && trak telem i slot && last_trak telem i slot
      && ir telem i slot && sp telem i slot
      && decide (|yag_offs expect telem cat i slot| < limit)
      && decide (|zag_offs expect telem cat i slot| < limit)
  else
    !(fids telem i slot) && trak telem i slot && last_trak telem i slot
      && ir telem i slot && sp telem i slot
      && dp telem i slot && ms dwell telem i slot
      && decide (|yag_offs expect telem cat i slot| < limit)
      && decide (|zag_offs expect telem cat i slot| < limit)

/-- The error the source raises (raise ValueError, line 105). -/
inductive KalError where
  | valueError
deriving DecidableEq

/-- The function kal, lines 41 to 106 of the source: computes the locked
matrix, then raises ValueError unconditionally, so the return of the
AOKALSTR times and the matrix on line 106 is dead code. -/
def kal (expect : ExpectFn) (dwell : Dwell) (telem : Telem) (limit : ℚ)
    (cat : List CatEntry) (nowflags : Bool) :
    Except KalError (List ℚ × (ℕ → Fin 8 → Bool)) :=
  let _result :=
    (telem.aokalstr.times,
     fun i slot => kalMatrix expect dwell telem limit cat nowflags i slot)
  Except.error KalError.valueError

/- Marginal-offset anomaly detection of
   src/kalman_threshold/search_scripts/from_derived.py, lines 240 to 245.
   The offset matrices (one column per BOT or GUI catalog entry) and the
   integer AOKALSTR series are the inputs of the detector, exactly as the
   script computes them just above those lines. -/

/-- diff of line 240: at sample i, the number of catalog-entry columns
(of m columns) whose offset is strictly between 5 and 20 arcseconds in
absolute value in the y axis or in the z axis. -/
def diffCount (yoffs zoffs : ℕ → ℕ → ℚ) (m : ℕ) (i : ℕ) : ℕ :=
  ((List.range m).filter (fun e =>
    (decide (|yoffs i e| > 5) && decide (|yoffs i e| < 20))
      || (decide (|zoffs i e| > 5) && decide (|zoffs i e| < 20)))).length

/-- np.flatnonzero of line 243: the increasing list of sample indices
(below the sample count n) where the onboard count minus diff is below 3
and diff is nonzero. -/
def flaggedIdx (kalstr : ℕ → ℤ) (yoffs zoffs : ℕ → ℕ → ℚ) (m n : ℕ) :
    List ℤ :=
  ((List.range n).filter (fun i =>
    decide (kalstr i - (diffCount yoffs zoffs m i : ℤ) < 3)
      && decide (diffCount yoffs zoffs m i ≠ 0))).map (fun i => (i : ℤ))

/-- consecutive of line 206: np.split of the index array at the positions
where the difference of neighbours is not 1, so maximal runs of
consecutive integers; an empty input yields one empty run, as np.split
does. -/
def consecutive : List ℤ → List (List ℤ)
  | [] => [[]]
  | x :: xs =>
    match consecutive xs with
    | [] => [[x]]
    | r :: rs =>
      match r with
      | [] => [x] :: rs
      | y :: _ => if y - x = 1 then (x :: r) :: rs else [x] :: r :: rs

/-- Lines 243 to 245: the dwell is reported (its obsid appended to
low_obsids) exactly when some run of flagged sample indices has length
above 8. -/
def suspect (kalstr : ℕ → ℤ) (yoffs zoffs : ℕ → ℕ → ℚ) (m n : ℕ) : Bool :=
  (consecutive (flaggedIdx kalstr yoffs zoffs m n)).any
    (fun e => decide (e.length > 8))

/- Spec-side definitions, written from the wording of the claims, for comparison
   with the source definitions above. -/

/-- Spec-side marginal count, following the wording of the claim: limit_low less
than or equal to the absolute offset, which is strictly below limit_high,
with the example values 5 and 20; compare diffCount, whose lower bound is
strict. -/
def diffCountSpec (yoffs zoffs : ℕ → ℕ → ℚ) (m : ℕ) (i : ℕ) : ℕ :=
  ((List.range m).filter (fun e =>
    (decide (5 ≤ |yoffs i e|) && decide (|yoffs i e| < 20))
      || (decide (5 ≤ |zoffs i e|) && decide (|zoffs i e| < 20)))).length

/-- Spec-side flagged indices using the spec-side marginal count. -/
def flaggedIdxSpec (kalstr : ℕ → ℤ) (yoffs zoffs : ℕ → ℕ → ℚ) (m n : ℕ) :
    List ℤ :=
  ((List.range n).filter (fun i =>
    decide (kalstr i - (diffCountSpec yoffs zoffs m i : ℤ) < 3)
      && decide (diffCountSpec yoffs zoffs m i ≠ 0))).map (fun i => (i : ℤ))

/-- Spec-side suspect verdict using the spec-side marginal count. -/
def suspectSpec (kalstr : ℕ → ℤ) (yoffs zoffs : ℕ → ℕ → ℚ) (m n : ℕ) :
    Bool :=
  (consecutive (flaggedIdxSpec kalstr yoffs zoffs m n)).any
    (fun e => decide (e.length > 8))

/-- Spec-side master-switch state, following the wording of the claim: the value
of the nearest MS-enable sample preceding (at or before) the query time;
compare mssAtTime, which drops the first and last time before searching
and subtracts one from the insertion point. -/
def mssNearestPreceding (telem : Telem) (t : ℚ) : Bool :=
  npIndex (mssVals telem)
    ((telem.aoacimss.times.countP (fun x => decide (x ≤ t)) : ℤ) - 1)

/-- Spec-side ms condition, following the wording of the claim: for dwells
starting after 2015:251 the ms flag may be OK or the master switch not
enabled at the nearest preceding MS-enable sample; otherwise the flag
must be OK. Compare ms, which uses mssAtTime. -/
def msSpec (dwell : Dwell) (telem : Telem) (i : ℕ) (slot : Fin 8) : Bool :=
  if pyStrGt dwell.start "2015:251" then
    ((telem.aoacims slot).vals.getD i "" == "OK ")
      || !(mssNearestPreceding telem ((telem.aoacims 0).times.getD i 0))
  else
    (telem.aoacims slot).vals.getD i "" == "OK "

/- Concrete inputs used by witnesses and counterexamples. -/

/-- A telemetry set with n samples at the given times, every per-slot
series constant, and the given AOACIMSS series. -/
def mkTelem (n : ℕ) (ts : List ℚ) (fid fct iir isp idp ims : String)
    (imss : Msid String) (yan zan : ℚ) : Telem where
  aokalstr := ⟨ts, List.replicate n "1 "⟩
  aoattqt1 := ⟨ts, List.replicate n 0⟩
  aoattqt2 := ⟨ts, List.replicate n 0⟩
  aoattqt3 := ⟨ts, List.replicate n 0⟩
  aoattqt4 := ⟨ts, List.replicate n 1⟩
  aoacfid := fun _ => ⟨ts, List.replicate n fid⟩
  aoacfct := fun _ => ⟨ts, List.replicate n fct⟩
  aoaciir := fun _ => ⟨ts, List.replicate n iir⟩
  aoacisp := fun _ => ⟨ts, List.replicate n isp⟩
  aoacidp := fun _ => ⟨ts, List.replicate n idp⟩
  aoacims := fun _ => ⟨ts, List.replicate n ims⟩
  aoacimss := imss
  aoacyan := fun _ => ⟨ts, List.replicate n yan⟩
  aoaczan := fun _ => ⟨ts, List.replicate n zan⟩

/-- Expected-angle collaborator returning zero angles for every star and
attitude. -/
def expect0 : ExpectFn := fun _ _ => (0, 0)

/-- A dwell starting before 2015:251. -/
def dwellPre : Dwell := ⟨"2014:001"⟩

/-- A dwell starting after 2015:251. -/
def dwellPost : Dwell := ⟨"2016:001"⟩

/-- One sample at time 0 (before dp_date), dp flag failing, every other
condition fine. -/
def telemC2 : Telem :=
  mkTelem 1 [0] "STAR" "TRAK" "OK " "OK " "ERR" "OK " ⟨[0], ["ENAB"]⟩ 0 0

/-- One sample at time 0, every flag fine. -/
def telemC2ok : Telem :=
  mkTelem 1 [0] "STAR" "TRAK" "OK " "OK " "OK " "OK " ⟨[0], ["ENAB"]⟩ 0 0

/-- One sample at time 600000000 (after dp_date), dp flag failing, every
other condition fine. -/
def telemC2after : Telem :=
  mkTelem 1 [600000000] "STAR" "TRAK" "OK " "OK " "ERR" "OK "
    ⟨[600000000], ["ENAB"]⟩ 0 0

/-- One sample with the slot marked as a fiducial light, every other
condition fine. -/
def telemFid : Telem :=
  mkTelem 1 [0] "FID " "TRAK" "OK " "OK " "OK " "OK " ⟨[0], ["ENAB"]⟩ 0 0

/-- Four samples at times 0, 10, 20, 25 with the ms flag failing; the
MS-enable series samples times 0, 10, 20, 30 with values enabled,
disabled, enabled, disabled, so at the query time 25 the nearest
preceding MS-enable sample (time 20) is enabled while the sample the code
indexes (time 10) is disabled. -/
def telemC6 : Telem :=
  mkTelem 4 [0, 10, 20, 25] "STAR" "TRAK" "OK " "OK " "OK " "ERR"
    ⟨[0, 10, 20, 30], ["ENAB", "DISA", "ENAB", "DISA"]⟩ 0 0

/-- Ten samples, tracking throughout, every flag fine, measured angles
zero. -/
def telemC7 : Telem :=
  mkTelem 10 [0, 1, 2, 3, 4, 5, 6, 7, 8, 9] "STAR" "TRAK" "OK " "OK "
    "OK " "OK " ⟨[0, 1, 2, 3, 4, 5, 6, 7, 8, 9], List.replicate 10 "ENAB"⟩ 0 0

/-- A BOT catalog entry assigning star 5 to slot 0. -/
def catBot : CatEntry := ⟨0, 5, "BOT"⟩

/-- C1: with now_flags false the classifier marks a slot locked at a
sample if and only if the slot is not fid_light, tracking holds now and
at the rolled four-steps-earlier reference sample, the ir and sp flags
are OK, the dp and ms conditions with their date-dependent overrides
hold, and both residual offsets are strictly inside the limit; and a slot
marked fid_light is never locked, for either now_flags value, regardless
of every other flag. -/
theorem c1_locked_iff (expect : ExpectFn) (dwell : Dwell) (telem : Telem)
    (limit : ℚ) (cat : List CatEntry) (i : ℕ) (slot : Fin 8) :
    (kalMatrix expect dwell telem limit cat false i slot = true ↔
      (fids telem i slot = false ∧ trak telem i slot = true
        ∧ last_trak telem i slot = true ∧ ir telem i slot = true
        ∧ sp telem i slot = true ∧ dp telem i slot = true
        ∧ ms dwell telem i slot = true
        ∧ |yag_offs expect telem cat i slot| < limit
        ∧ |zag_offs expect telem cat i slot| < limit))
    ∧ (∀ nf : Bool, fids telem i slot = true →
        kalMatrix expect dwell telem limit cat nf i slot = false) := by
  constructor
  · simp [kalMatrix, Bool.and_eq_true, Bool.not_eq_true', decide_eq_true_eq,
      and_assoc]
  · intro nf hf
    cases nf <;> simp [kalMatrix, hf]

/-- Witness for C1 at a concrete input: a slot marked fid_light with every
other condition satisfied is not locked. -/
theorem c1_locked_iff_witness :
    kalMatrix expect0 dwellPre telemFid 20 [] false 0 0 = false :=
  (c1_locked_iff expect0 dwellPre telemFid 20 [] 0 0).2 false (by decide)

/-- C2 counterexample: a sample taken before dp_date whose dp flag fails,
with every other locking condition satisfied, is not locked, although the
claim says dp failures before that instant are ignored. -/
theorem c2_counterexample :
    telemC2.aokalstr.times.getD 0 0 < dp_date
    ∧ (telemC2.aoacidp 0).vals.getD 0 "" ≠ "OK "
    ∧ fids telemC2 0 0 = false ∧ trak telemC2 0 0 = true
    ∧ last_trak telemC2 0 0 = true ∧ ir telemC2 0 0 = true
    ∧ sp telemC2 0 0 = true ∧ ms dwellPre telemC2 0 0 = true
    ∧ |yag_offs expect0 telemC2 [] 0 0| < 20
    ∧ |zag_offs expect0 telemC2 [] 0 0| < 20
    ∧ kalMatrix expect0 dwellPre telemC2 20 [] false 0 0 = false := by
  decide

/-- C2 amended: the dp override runs the other way round: for a sample
with timestamp strictly after dp_date a failing dp_flag does not
disqualify the slot (all other conditions being satisfied, the slot is
locked), while for a sample with timestamp at or before dp_date a failing
dp_flag with now_flags false disqualifies it. -/
theorem c2_dp_override (expect : ExpectFn) (dwell : Dwell) (telem : Telem)
    (limit : ℚ) (cat : List CatEntry) (i : ℕ) (slot : Fin 8)
    (hfid : fids telem i slot = false) (htrak : trak telem i slot = true)
    (hlast : last_trak telem i slot = true) (hir : ir telem i slot = true)
    (hsp : sp telem i slot = true) (hms : ms dwell telem i slot = true)
    (hy : |yag_offs expect telem cat i slot| < limit)
    (hz : |zag_offs expect telem cat i slot| < limit)
    (hdp : (telem.aoacidp slot).vals.getD i "" ≠ "OK ") :
    (telem.aokalstr.times.getD i 0 > dp_date →
      kalMatrix expect dwell telem limit cat false i slot = true)
    ∧ (telem.aokalstr.times.getD i 0 ≤ dp_date →
      kalMatrix expect dwell telem limit cat false i slot = false) := by
  constructor
  · intro ht
    have hdpc : dp telem i slot = true := by
      unfold dp
      rw [decide_eq_true ht, Bool.or_true]
    simp [kalMatrix, hfid, htrak, hlast, hir, hsp, hms, hdpc, hy, hz]
  · intro ht
    have hdpc : dp telem i slot = false := by
      unfold dp
      rw [decide_eq_false (not_lt.mpr ht), beq_eq_false_iff_ne.mpr hdp,
        Bool.or_self]
    simp [kalMatrix, hdpc]

/-- Witness for C2 amended at a concrete input: the same failing-dp sample
taken after dp_date is locked. -/
theorem c2_dp_override_witness :
    kalMatrix expect0 dwellPre telemC2after 20 [] false 0 0 = true :=
  (c2_dp_override expect0 dwellPre telemC2after 20 [] 0 0 (by decide)
    (by decide) (by decide) (by decide) (by decide) (by decide) (by decide)
    (by decide) (by decide)).1 (by decide)

/-- C3: for every input, kal raises ValueError after computing the locked
matrix, so its return statement is unreachable and no caller obtains the
computed result. -/
theorem c3_kal_always_raises (expect : ExpectFn) (dwell : Dwell)
    (telem : Telem) (limit : ℚ) (cat : List CatEntry) (nowflags : Bool) :
    kal expect dwell telem limit cat nowflags
      = Except.error KalError.valueError := rfl

/-- C4: the code contradicts the claimed error contract: an input whose
catalog has a BOT entry and whose telemetry carries every required
per-slot field still fails, because kal raises unconditionally. -/
theorem c4_valid_input_still_raises :
    gcat [catBot] ≠ []
    ∧ kal expect0 dwellPre telemC7 20 [catBot] false
      = Except.error KalError.valueError := by
  exact ⟨by decide, rfl⟩

/-- C5: with now_flags true the classification of every sample and slot is
identical for two telemetry sets that agree on everything except the
per-slot dp flags (AOACIDP), ms flags (AOACIMS) and the MS-enable series
(AOACIMSS). -/
theorem c5_nowflags_insensitive (expect : ExpectFn) (dwell : Dwell)
    (t1 t2 : Telem) (limit : ℚ) (cat : List CatEntry)
    (h1 : t1.aokalstr = t2.aokalstr) (h2 : t1.aoattqt1 = t2.aoattqt1)
    (h3 : t1.aoattqt2 = t2.aoattqt2) (h4 : t1.aoattqt3 = t2.aoattqt3)
    (h5 : t1.aoattqt4 = t2.aoattqt4) (h6 : t1.aoacfid = t2.aoacfid)
    (h7 : t1.aoacfct = t2.aoacfct) (h8 : t1.aoaciir = t2.aoaciir)
    (h9 : t1.aoacisp = t2.aoacisp) (h10 : t1.aoacyan = t2.aoacyan)
    (h11 : t1.aoaczan = t2.aoaczan) :
    ∀ (i : ℕ) (slot : Fin 8),
      kalMatrix expect dwell t1 limit cat true i slot
        = kalMatrix expect dwell t2 limit cat true i slot := by
  have hq : ∀ i, qAtt t1 i = qAtt t2 i := by
    intro i
    simp [qAtt, h2, h3, h4, h5]
  have hy : ∀ i slot, yag_offs expect t1 cat i slot
      = yag_offs expect t2 cat i slot := by
    intro i slot
    unfold yag_offs
    cases assignedEntry cat slot <;> simp [hq, h10]
  have hz : ∀ i slot, zag_offs expect t1 cat i slot
      = zag_offs expect t2 cat i slot := by
    intro i slot
    unfold zag_offs
    cases assignedEntry cat slot <;> simp [hq, h11]
  intro i slot
  simp only [kalMatrix, fids, trak, last_trak, ir, sp, nSamples, h1, h6, h7,
    h8, h9, hy, hz, if_true]

/-- Witness for C5: two one-sample telemetry sets differing only in the
dp flag value classify identically under now_flags. -/
theorem c5_nowflags_insensitive_witness :
    kalMatrix expect0 dwellPre telemC2ok 20 [] true 0 0
      = kalMatrix expect0 dwellPre telemC2 20 [] true 0 0 :=
  c5_nowflags_insensitive expect0 dwellPre telemC2ok telemC2 20 [] rfl rfl
    rfl rfl rfl rfl rfl rfl rfl rfl rfl 0 0

/-- C6 counterexample: a dwell starting after 2015:251, a sample whose ms
flag fails while the nearest preceding MS-enable sample is enabled, so by
the rule of the claim the override does not apply (the spec-side ms
condition fails) and the slot must not be locked; the search of the code
indexes an
earlier, disabled sample, so its ms condition holds and it marks the slot
locked. -/
theorem c6_counterexample :
    pyStrGt dwellPost.start "2015:251" = true
    ∧ (telemC6.aoacims 0).vals.getD 3 "" ≠ "OK "
    ∧ mssNearestPreceding telemC6 ((telemC6.aoacims 0).times.getD 3 0) = true
    ∧ msSpec dwellPost telemC6 3 0 = false
    ∧ ms dwellPost telemC6 3 0 = true
    ∧ kalMatrix expect0 dwellPost telemC6 20 [] false 3 0 = true := by
  decide

/-- C6 amended: for a dwell starting after 2015-251, a failing ms_flag at
a sample (every other locking condition being satisfied) is ignored
exactly when the MS-enable sample the code selects is not enabled, the
selected index being the left insertion point of the timestamp of the
slot sample in the MS-enable time series with its first and last entry
dropped, minus one (minus one wrapping to the final sample); for a dwell
starting at or before 2015-251 the ms condition is simply that the ms
flag is OK, so such a sample is never locked. -/
theorem c6_ms_override (expect : ExpectFn) (dwell : Dwell) (telem : Telem)
    (limit : ℚ) (cat : List CatEntry) (i : ℕ) (slot : Fin 8)
    (hfid : fids telem i slot = false) (htrak : trak telem i slot = true)
    (hlast : last_trak telem i slot = true) (hir : ir telem i slot = true)
    (hsp : sp telem i slot = true) (hdp : dp telem i slot = true)
    (hy : |yag_offs expect telem cat i slot| < limit)
    (hz : |zag_offs expect telem cat i slot| < limit)
    (hflag : (telem.aoacims slot).vals.getD i "" ≠ "OK ") :
    (pyStrGt dwell.start "2015:251" = true →
      (kalMatrix expect dwell telem limit cat false i slot = true ↔
        mssAtTime telem ((telem.aoacims 0).times.getD i 0) = false))
    ∧ (pyStrGt dwell.start "2015:251" = false →
      kalMatrix expect dwell telem limit cat false i slot = false) := by
  constructor
  · intro hgt
    have hmsc : ms dwell telem i slot
        = !(mssAtTime telem ((telem.aoacims 0).times.getD i 0)) := by
      unfold ms
      rw [if_pos hgt, beq_eq_false_iff_ne.mpr hflag, Bool.false_or]
    simp [kalMatrix, hfid, htrak, hlast, hir, hsp, hdp, hmsc, hy, hz]
  · intro hle
    have hmsc : ms dwell telem i slot = false := by
      unfold ms
      rw [if_neg ?hc, beq_eq_false_iff_ne.mpr hflag]
      case hc => simp [hle]
    simp [kalMatrix, hmsc]

/-- Witness for C6 amended at the concrete input of the counterexample:
the code-selected MS-enable sample is disabled, so the slot is locked. -/
theorem c6_ms_override_witness :
    kalMatrix expect0 dwellPost telemC6 20 [] false 3 0 = true :=
  ((c6_ms_override expect0 dwellPost telemC6 20 [] 3 0 (by decide)
    (by decide) (by decide) (by decide) (by decide) (by decide) (by decide)
    (by decide) (by decide)).1 (by decide)).mpr (by decide)

/-- C7: end-to-end scenario: over a 10-sample series whose slot carries a
BOT star, with constant attitude, zero residual in both axes at every
sample (the expected angles equal the measured ones), every quality flag
OK, not fid_light and tracking true throughout, the classifier marks the
slot locked at all 10 samples, the first-sample boundary defaulting the
prior-tracking condition to true and samples 1 to 3 wrapping around to
the tracking-true tail of the series. -/
theorem c7_scenario (expect : ExpectFn) (dwell : Dwell) (telem : Telem)
    (star : ℕ) (k : Fin 8) (q : ℚ × ℚ × ℚ × ℚ) (nf : Bool)
    (hn : nSamples telem = 10)
    (_hq : ∀ i < 10, qAtt telem i = q)
    (hfid : ∀ i < 10, (telem.aoacfid k).vals.getD i "" ≠ "FID ")
    (htrak : ∀ i < 10, (telem.aoacfct k).vals.getD i "" = "TRAK")
    (hir : ∀ i < 10, (telem.aoaciir k).vals.getD i "" = "OK ")
    (hsp : ∀ i < 10, (telem.aoacisp k).vals.getD i "" = "OK ")
    (hdp : ∀ i < 10, (telem.aoacidp k).vals.getD i "" = "OK ")
    (hms : ∀ i < 10, (telem.aoacims k).vals.getD i "" = "OK ")
    (hres : ∀ i < 10, expect star (qAtt telem i)
      = ((telem.aoacyan k).vals.getD i 0, (telem.aoaczan k).vals.getD i 0)) :
    ∀ i < 10, kalMatrix expect dwell telem 20 [⟨k, star, "BOT"⟩] nf i k
      = true := by
  intro i hi
  have hentry : assignedEntry [(⟨k, star, "BOT"⟩ : CatEntry)] k
      = some ⟨k, star, "BOT"⟩ := by
    simp [assignedEntry, gcat]
  have hyoff : yag_offs expect telem [⟨k, star, "BOT"⟩] i k = 0 := by
    simp [yag_offs, hentry, hres i hi]
  have hzoff : zag_offs expect telem [⟨k, star, "BOT"⟩] i k = 0 := by
    simp [zag_offs, hentry, hres i hi]
  have hlast : last_trak telem i k = true := by
    unfold last_trak
    rcases Nat.eq_zero_or_pos i with h0 | h0
    · rw [if_pos h0]
    · rw [if_neg (by omega)]
      have h10 : (nSamples telem : ℤ) = 10 := by exact_mod_cast hn
      have hjlt : (((i : ℤ) - 4).emod (nSamples telem : ℤ)).toNat < 10 := by
        have hnn : 0 ≤ ((i : ℤ) - 4).emod (nSamples telem : ℤ) :=
          Int.emod_nonneg _ (by rw [h10]; norm_num)
        have hlt : ((i : ℤ) - 4).emod (nSamples telem : ℤ) < 10 := by
          rw [h10]
          exact Int.emod_lt_of_pos _ (by norm_num)
        omega
      unfold trak
      rw [htrak _ hjlt]
      rfl
  have h1 : fids telem i k = false := beq_eq_false_iff_ne.mpr (hfid i hi)
  have h2 : trak telem i k = true := by
    unfold trak
    rw [htrak i hi]
    rfl
  have h3 : ir telem i k = true := by
    unfold ir
    rw [hir i hi]
    rfl
  have h4 : sp telem i k = true := by
    unfold sp
    rw [hsp i hi]
    rfl
  have h5 : dp telem i k = true := by
    unfold dp
    rw [hdp i hi]
    rfl
  have h6 : ms dwell telem i k = true := by
    unfold ms
    split <;> rw [hms i hi] <;> rfl
  cases nf <;>
    norm_num [kalMatrix, h1, h2, h3, h4, h5, h6, hlast, hyoff, hzoff]

/-- Witness for C7 at a concrete 10-sample input, evaluated at sample 3
(one of the wraparound indices). -/
theorem c7_scenario_witness :
    kalMatrix expect0 dwellPre telemC7 20 [⟨0, 5, "BOT"⟩] false 3 0
      = true :=
  c7_scenario expect0 dwellPre telemC7 5 0 (0, 0, 0, 1) false (by decide)
    (by decide) (by decide) (by decide) (by decide) (by decide) (by decide)
    (by decide) (by decide) 3 (by decide)

/-- Offset matrix whose every entry is exactly 5 arcseconds: marginal
marginal per the inclusive lower bound of the claim, not marginal per the
strict one of the code. -/
def yoffMarg : ℕ → ℕ → ℚ := fun _ _ => 5

/-- Offset matrix whose every entry is 6 arcseconds: marginal under both
readings. -/
def yoffMarg6 : ℕ → ℕ → ℚ := fun _ _ => 6

/-- Offset matrix that is zero everywhere. -/
def zoffZero : ℕ → ℕ → ℚ := fun _ _ => 0

/-- Onboard count constantly one. -/
def kalstrOne : ℕ → ℤ := fun _ => 1

/-- C8 counterexample: with one catalog entry whose offset is exactly 5
arcseconds at all 10 samples and onboard count 1, the inclusive lower
bound of the claim (limit_low less than or equal to the offset) flags the
dwell, but the strictly-greater-than-5 test of the code counts no marginal slot and
does not flag it. -/
theorem c8_counterexample :
    |yoffMarg 0 0| = 5
    ∧ suspectSpec kalstrOne yoffMarg zoffZero 1 10 = true
    ∧ suspect kalstrOne yoffMarg zoffZero 1 10 = false := by
  decide

/-- C8 amended: per sample, diff counts the slots whose offset is
strictly between limit_low and limit_high (5 and 20 arcsec, both bounds
strict) in either axis; a sample is flagged when the onboard count minus
diff is below 3 and diff is nonzero, consecutive flagged indices are
grouped into runs, and the dwell is reported exactly when some run
exceeds 8 samples — so 3 strictly-marginal slots with onboard count 1
sustained for 10 consecutive samples flag the dwell. -/
theorem c8_anomaly (kalstr : ℕ → ℤ) (yoffs zoffs : ℕ → ℕ → ℚ)
    (hk : ∀ i < 10, kalstr i = 1)
    (hm : ∀ i < 10, ∀ e < 3, 5 < |yoffs i e| ∧ |yoffs i e| < 20) :
    (∀ i < 10, diffCount yoffs zoffs 3 i = 3)
    ∧ suspect kalstr yoffs zoffs 3 10 = true := by
  have hd : ∀ i < 10, diffCount yoffs zoffs 3 i = 3 := by
    intro i hi
    unfold diffCount
    have hf : (List.range 3).filter (fun e =>
        (decide (|yoffs i e| > 5) && decide (|yoffs i e| < 20))
          || (decide (|zoffs i e| > 5) && decide (|zoffs i e| < 20)))
        = List.range 3 := by
      apply List.filter_eq_self.mpr
      intro a ha
      have hm2 := hm i hi a (List.mem_range.mp ha)
      simp [hm2.1, hm2.2]
    rw [hf]
    simp
  refine ⟨hd, ?_⟩
  unfold suspect
  have hfilter : (List.range 10).filter (fun i =>
      decide (kalstr i - (diffCount yoffs zoffs 3 i : ℤ) < 3)
        && decide (diffCount yoffs zoffs 3 i ≠ 0)) = List.range 10 := by
    apply List.filter_eq_self.mpr
    intro a ha
    have ha10 := List.mem_range.mp ha
    simp only [hd a ha10, hk a ha10]
    decide
  unfold flaggedIdx
  rw [hfilter]
  decide

/-- Witness for C8 amended: three entries at 6 arcseconds for 10 samples
with onboard count 1 flag the dwell. -/
theorem c8_anomaly_witness :
    suspect kalstrOne yoffMarg6 zoffZero 3 10 = true :=
  (c8_anomaly kalstrOne yoffMarg6 zoffZero (by decide) (by decide)).2

/-- C9: a slot with no BOT or GUI catalog entry keeps both offset columns
at their initial value 0, so for any positive limit the residual tests
hold and the slot is locked exactly when its fid, tracking and flag
conditions alone are satisfied. -/
theorem c9_unassigned_locked (expect : ExpectFn) (dwell : Dwell)
    (telem : Telem) (limit : ℚ) (cat : List CatEntry) (nf : Bool)
    (i : ℕ) (slot : Fin 8)
    (hnone : assignedEntry cat slot = none) (hlim : 0 < limit) :
    yag_offs expect telem cat i slot = 0
    ∧ zag_offs expect telem cat i slot = 0
    ∧ kalMatrix expect dwell telem limit cat nf i slot
      = (!(fids telem i slot) && trak telem i slot
          && last_trak telem i slot && ir telem i slot && sp telem i slot
          && (nf || (dp telem i slot && ms dwell telem i slot))) := by
  have hy : yag_offs expect telem cat i slot = 0 := by
    simp [yag_offs, hnone]
  have hz : zag_offs expect telem cat i slot = 0 := by
    simp [zag_offs, hnone]
  refine ⟨hy, hz, ?_⟩
  cases nf <;>
    simp [kalMatrix, hy, hz, abs_zero, decide_eq_true hlim, Bool.and_assoc]

/-- Witness for C9 at a concrete input with an empty catalog. -/
theorem c9_unassigned_locked_witness :
    yag_offs expect0 telemC2ok [] 0 0 = 0
    ∧ zag_offs expect0 telemC2ok [] 0 0 = 0
    ∧ kalMatrix expect0 dwellPre telemC2ok 20 [] false 0 0
      = (!(fids telemC2ok 0 0) && trak telemC2ok 0 0
          && last_trak telemC2ok 0 0 && ir telemC2ok 0 0
          && sp telemC2ok 0 0
          && (false || (dp telemC2ok 0 0 && ms dwellPre telemC2ok 0 0))) :=
  c9_unassigned_locked expect0 dwellPre telemC2ok 20 [] false 0 0
    (by decide) (by decide)

/-- C10: the prior-tracking series is the tracking series rolled by 4, so
with at least 4 samples the rows 1, 2 and 3 take tracking from the last
three rows n-3, n-2, n-1 by wraparound, and only row 0 is forced to
true. -/
theorem c10_roll_wraparound (telem : Telem) (slot : Fin 8)
    (hn : 4 ≤ nSamples telem) :
    last_trak telem 0 slot = true
    ∧ last_trak telem 1 slot = trak telem (nSamples telem - 3) slot
    ∧ last_trak telem 2 slot = trak telem (nSamples telem - 2) slot
    ∧ last_trak telem 3 slot = trak telem (nSamples telem - 1) slot := by
  have key : ∀ j : ℕ, 0 < j → j < 4 →
      last_trak telem j slot
        = trak telem (nSamples telem - (4 - j)) slot := by
    intro j hj0 hj4
    unfold last_trak
    rw [if_neg (by omega)]
    have h4n : (4 : ℤ) ≤ (nSamples telem : ℤ) := by exact_mod_cast hn
    have hmod : ((j : ℤ) - 4) % (nSamples telem : ℤ)
        = (j : ℤ) - 4 + (nSamples telem : ℤ) := by
      have h := Int.add_mul_emod_self_left (a := (j : ℤ) - 4)
        (b := (nSamples telem : ℤ)) (c := 1)
      rw [mul_one] at h
      rw [← h]
      exact Int.emod_eq_of_lt (by omega) (by omega)
    have harg : (((j : ℤ) - 4).emod (nSamples telem : ℤ)).toNat
        = nSamples telem - (4 - j) := by
      have hmod2 : ((j : ℤ) - 4).emod (nSamples telem : ℤ)
          = (j : ℤ) - 4 + (nSamples telem : ℤ) := hmod
      omega
    rw [harg]
  exact ⟨rfl, key 1 (by norm_num) (by norm_num),
    key 2 (by norm_num) (by norm_num), key 3 (by norm_num) (by norm_num)⟩

/-- Witness for C10 at a concrete 10-sample input. -/
theorem c10_roll_wraparound_witness :
    last_trak telemC7 0 0 = true
    ∧ last_trak telemC7 1 0 = trak telemC7 (nSamples telemC7 - 3) 0
    ∧ last_trak telemC7 2 0 = trak telemC7 (nSamples telemC7 - 2) 0
    ∧ last_trak telemC7 3 0 = trak telemC7 (nSamples telemC7 - 1) 0 :=
  c10_roll_wraparound telemC7 0 (by decide)

end KalmanThreshold
